import Mathlib

/-!
Shallow embedding of the image-optimization pipeline
(`.github/scripts/optimize-images.js`) and of the gallery front end
(`script.js`) of this repository, with theorems settling the frozen
claims about classification, ordering, encoder fallback, timeout
handling, manifest construction and year extraction.

Paths are modelled as `String`s with forward-slash separators (the
values the pipeline actually builds: relative directory constants
joined with basenames).  External effects (ffmpeg exit statuses, Sharp
encode success, unexpected exceptions) are modelled as oracles supplied
through an `Env` record, so every run of the embedded pipeline is a
pure function of the file list and the oracle.
-/

namespace MdGallery

/-! ## String and path helpers

The JS sources use `path.extname`, `path.basename`, `String.split("/")`
and `toLowerCase`.  They are embedded here as structurally recursive
functions over `List Char` so that the kernel can evaluate them on
concrete inputs. -/

/-- The last `/`-separated component of a path, as characters.
Embeds both JS idioms used by the sources: `p.split("/").pop() || ""`
(from `script.js` `basename`) and Node `path.basename(p)` on the
slash-free-tail relative paths produced by glob (which contain no
trailing separators). -/
def lastComponentChars (cs : List Char) : List Char :=
  cs.foldl (fun acc c => if c = '/' then [] else acc ++ [c]) []

/-- The suffix of `cs` starting at its LAST dot, when a dot occurs. -/
def extSuffix : List Char → Option (List Char)
  | [] => none
  | c :: rest =>
    match extSuffix rest with
    | some s => some s
    | none => if c = '.' then some (c :: rest) else none

/-- Node `path.extname` on the glob-produced paths of this pipeline:
the basename substring from its last dot, or empty when there is no
dot or the dot is the basename's first character (hidden files, which
glob's default `dot:false` excludes anyway). -/
def extnameChars (cs : List Char) : List Char :=
  let bn := lastComponentChars cs
  match extSuffix bn with
  | none => []
  | some s => if s.length = bn.length then [] else s

def extname (p : String) : String := String.mk (extnameChars p.data)

/-- `path.extname(f).toLowerCase()` — extensions here are ASCII, so JS
`toLowerCase` coincides with `Char.toLower`. -/
def lowerExtChars (cs : List Char) : List Char :=
  (extnameChars cs).map Char.toLower

def lowerExt (p : String) : String := String.mk (lowerExtChars p.data)

/-- `const gifs = files.filter(f => path.extname(f).toLowerCase() === ".gif")`. -/
def isGif (p : String) : Bool := lowerExt p == ".gif"

/-- `const base = path.basename(file, ext)` with
`ext = path.extname(file).toLowerCase()`: Node strips the suffix only
when the basename ends with it (case-sensitively) and is longer than it. -/
def baseOfChars (cs : List Char) : List Char :=
  let bn := lastComponentChars cs
  let e := lowerExtChars cs
  if e.length < bn.length && e.isSuffixOf bn then bn.take (bn.length - e.length) else bn

def baseOf (p : String) : String := String.mk (baseOfChars p.data)

/-! ## Configuration constants (top of optimize-images.js) -/

def srcDir : String := "images"
def outDir : String := "images-optimized"
def thumbDir : String := "images-thumbs"
def indexFile : String := "index.json"

/-- `const MAX_FFMPEG_MS = 90000; // 90s per ffmpeg invocation (prevents CI hangs)` -/
def MAX_FFMPEG_MS : Nat := 90000

/-- The glob pattern used for discovery (recursive, `**`). -/
def pattern : String :=
  srcDir ++ "/**/*.+(jpg|jpeg|png|webp|gif|JPG|JPEG|PNG|WEBP|GIF)"

/-! ## runCmd / spawnSync timeout model -/

/-- The options object passed to Node `spawnSync`. -/
structure SpawnSyncOptions where
  encoding : Option String
  timeout : Option Nat
deriving DecidableEq

/-- The options object the ffmpeg call sites pass as a THIRD argument to
`runCmd`: `runCmd("ffmpeg", args, { timeout: MAX_FFMPEG_MS })`. -/
def ffmpegCallSiteOptions : SpawnSyncOptions :=
  { encoding := none, timeout := some MAX_FFMPEG_MS }

/-- The options `runCmd` actually hands to `spawnSync`.  The source is
`function runCmd(cmd, args) { const res = spawnSync(cmd, args,
{ encoding: "utf8" }); ... }`: the function is declared with TWO
parameters, so by JS extra-argument semantics any third argument given
at a call site is discarded, and `spawnSync` always receives the fixed
object with `encoding` only and no `timeout`. -/
def runCmdSpawnOptions (callerThirdArg : Option SpawnSyncOptions) : SpawnSyncOptions :=
  match callerThirdArg with
  | _ => { encoding := some "utf8", timeout := none }

/-- Node `spawnSync` wall-clock semantics: with a `timeout` option the
child is killed once the timeout elapses; with no `timeout` option the
call blocks until the child exits on its own.  `childMs` is how long the
child would run if never killed; the result is how long the invocation
actually occupies the (synchronous, single-threaded) script. -/
def spawnSyncElapsed (opts : SpawnSyncOptions) (childMs : Nat) : Nat :=
  match opts.timeout with
  | some t => min childMs t
  | none => childMs

/-- Whether `spawnSync` abandons (kills) the child before it finishes. -/
def spawnSyncAbandoned (opts : SpawnSyncOptions) (childMs : Nat) : Bool :=
  match opts.timeout with
  | some t => decide (t < childMs)
  | none => false

/-! ## ffmpeg argument lists (gif branch) -/

def fullScaleVf : String := "fps=30,scale=\x27min(1280,iw)\x27:-2:flags=lanczos"

def thumbVf : String :=
  "fps=15,scale=480:480:force_original_aspect_ratio=increase,crop=480:480,setsar=1"

/-- Primary attempt: VP9 (`-c:v libvpx-vp9`, `-crf 35`). -/
def vp9Args (file out : String) : List String :=
  ["-y", "-hide_banner", "-i", file,
   "-vf", fullScaleVf,
   "-pix_fmt", "yuv420p",
   "-c:v", "libvpx-vp9",
   "-deadline", "good",
   "-cpu-used", "4",
   "-row-mt", "1",
   "-b:v", "0",
   "-crf", "35",
   "-auto-alt-ref", "0",
   "-an", out]

/-- Fallback attempt: VP8 (`-c:v libvpx`, `-crf 30`). -/
def vp8Args (file out : String) : List String :=
  ["-y", "-hide_banner", "-i", file,
   "-vf", fullScaleVf,
   "-pix_fmt", "yuv420p",
   "-c:v", "libvpx",
   "-b:v", "0",
   "-crf", "30",
   "-an", out]

/-- Thumbnail rendition: 3 seconds, square crop, VP8, `-crf 40`. -/
def thumbArgs (file out : String) : List String :=
  ["-y", "-hide_banner", "-i", file,
   "-vf", fullScaleVf,
   "-vf", thumbVf,
   "-t", "3",
   "-pix_fmt", "yuv420p",
   "-c:v", "libvpx",
   "-deadline", "good",
   "-cpu-used", "4",
   "-b:v", "0",
   "-crf", "40",
   "-an", out]

/-! ## Output paths (all built from the source basename only) -/

def gifFullOut (file : String) : String := outDir ++ "/" ++ baseOf file ++ ".webm"
def gifThumbOut (file : String) : String := thumbDir ++ "/" ++ baseOf file ++ ".webm"
def gifCopyOut (file : String) : String := outDir ++ "/" ++ baseOf file ++ ".gif"
def staticFullWebp (file : String) : String := outDir ++ "/" ++ baseOf file ++ ".webp"
def staticFullJpg (file : String) : String := outDir ++ "/" ++ baseOf file ++ ".jpg"
def staticThumbWebp (file : String) : String := thumbDir ++ "/" ++ baseOf file ++ ".webp"
def staticThumbJpg (file : String) : String := thumbDir ++ "/" ++ baseOf file ++ ".jpg"

/-- `path.relative(".", p).replace(/\\/g, "/")`: on the forward-slash
relative paths this pipeline builds, both steps are the identity. -/
def relToRoot (p : String) : String := p

/-- The variant files the gif branch targets for one source file. -/
def gifVariantOutputs (file : String) : List String :=
  [gifFullOut file, gifThumbOut file]

/-- The variant files the static branch targets for one source file. -/
def staticVariantOutputs (file : String) : List String :=
  [staticFullWebp file, staticFullJpg file, staticThumbWebp file, staticThumbJpg file]

/-- All variant output paths the pipeline derives for a source file —
a function of the classification and the basename only. -/
def variantOutputs (file : String) : List String :=
  if isGif file then gifVariantOutputs file else staticVariantOutputs file

/-! ## Manifest entries -/

/-- One element of `indexData` / `index.json`.  `optimized` and
`thumbnail` are association lists encoding-name to path (`webm` for the
gif branch; `webp` and `jpg` for the static branch). -/
structure Entry where
  original : String
  optimized : List (String × String)
  thumbnail : List (String × String)
  format : String
deriving DecidableEq

def gifEntry (file : String) : Entry :=
  { original := relToRoot file,
    optimized := [("webm", relToRoot (gifFullOut file))],
    thumbnail := [("webm", relToRoot (gifThumbOut file))],
    format := "webm" }

def staticEntry (file : String) : Entry :=
  { original := relToRoot file,
    optimized := [("webp", relToRoot (staticFullWebp file)),
                  ("jpg", relToRoot (staticFullJpg file))],
    thumbnail := [("webp", relToRoot (staticThumbWebp file)),
                  ("jpg", relToRoot (staticThumbJpg file))],
    format := "image" }

/-- All variant paths an entry references. -/
def entryPaths (e : Entry) : List String :=
  (e.optimized ++ e.thumbnail).map Prod.snd

/-! ## Per-item processing -/

/-- Result of the gif branch of the loop body: the ffmpeg invocations
made (in order), the destination of the degraded-delivery copy when
both full-rendition attempts fail, the output files successfully
produced, and the manifest entry pushed (if any). -/
structure GifResult where
  invocations : List (List String)
  copiedTo : Option String
  written : List String
  entry : Option Entry
deriving DecidableEq

/-- The gif branch (`if (ext === ".gif") { ... }`): try VP9; on failure
retry once with VP8; if both fail copy the original gif into the
full-tier output directory and `continue` (no thumbnail invocation, no
entry); otherwise attempt the thumbnail encode once and push an entry
only when it also succeeds.  `ffmpegOk` gives the exit-status success
of one ffmpeg invocation as a function of its argument list. -/
def processGif (ffmpegOk : List String → Bool) (file : String) : GifResult :=
  let a1 := vp9Args file (gifFullOut file)
  let a2 := vp8Args file (gifFullOut file)
  let a3 := thumbArgs file (gifThumbOut file)
  if ffmpegOk a1 then
    if ffmpegOk a3 then
      { invocations := [a1, a3], copiedTo := none,
        written := [gifFullOut file, gifThumbOut file], entry := some (gifEntry file) }
    else
      { invocations := [a1, a3], copiedTo := none,
        written := [gifFullOut file], entry := none }
  else if ffmpegOk a2 then
    if ffmpegOk a3 then
      { invocations := [a1, a2, a3], copiedTo := none,
        written := [gifFullOut file, gifThumbOut file], entry := some (gifEntry file) }
    else
      { invocations := [a1, a2, a3], copiedTo := none,
        written := [gifFullOut file], entry := none }
  else
    { invocations := [a1, a2], copiedTo := some (gifCopyOut file),
      written := [gifCopyOut file], entry := none }

/-- Success of each of the four Sharp encodes of one static asset
(`toFile` resolving rather than rejecting). -/
structure StaticOutcome where
  fullWebpOk : Bool
  fullJpgOk : Bool
  thumbWebpOk : Bool
  thumbJpgOk : Bool
deriving DecidableEq

/-- Files successfully produced for an item, and the entry pushed. -/
structure ItemResult where
  written : List String
  entry : Option Entry
deriving DecidableEq

/-- The static branch: the first `Promise.all` starts both full-tier
encodes (each writes its file iff its own encode succeeds); if either
rejects the awaited `Promise.all` throws and the catch skips the item.
The thumbnail pair runs only after the full pair succeeded, and the
entry is pushed only when all four encodes succeeded. -/
def processStatic (oc : StaticOutcome) (file : String) : ItemResult :=
  let fullWritten :=
    (if oc.fullWebpOk then [staticFullWebp file] else []) ++
    (if oc.fullJpgOk then [staticFullJpg file] else [])
  if oc.fullWebpOk && oc.fullJpgOk then
    let thumbWritten :=
      (if oc.thumbWebpOk then [staticThumbWebp file] else []) ++
      (if oc.thumbJpgOk then [staticThumbJpg file] else [])
    if oc.thumbWebpOk && oc.thumbJpgOk then
      { written := fullWritten ++ thumbWritten, entry := some (staticEntry file) }
    else
      { written := fullWritten ++ thumbWritten, entry := none }
  else
    { written := fullWritten, entry := none }

/-- External-world oracle for one run: ffmpeg exit statuses, Sharp
encode outcomes per file, and whether processing a given file throws an
unexpected exception (modelled as thrown before any write). -/
structure Env where
  ffmpegOk : List String → Bool
  sharpOutcome : String → StaticOutcome
  throws : String → Bool

/-- One iteration of the `for (const file of orderedFiles)` loop.  The
whole body is inside `try { ... } catch` — an unexpected exception
yields no entry and processing continues. -/
def processFile (env : Env) (file : String) : ItemResult :=
  if env.throws file then { written := [], entry := none }
  else if isGif file then
    { written := (processGif env.ffmpegOk file).written,
      entry := (processGif env.ffmpegOk file).entry }
  else processStatic (env.sharpOutcome file) file

/-! ## The batch -/

/-- `const orderedFiles = [...statics, ...gifs]` with
`statics = files.filter(f => extname(f).toLowerCase() !== ".gif")` and
`gifs = files.filter(f => extname(f).toLowerCase() === ".gif")`. -/
def orderedFiles (files : List String) : List String :=
  (files.filter fun f => !(isGif f)) ++ (files.filter fun f => isGif f)

/-- The manifest accumulated by the loop: entries pushed in iteration
order, failed items contributing nothing. -/
def runBatch (env : Env) (files : List String) : List Entry :=
  (orderedFiles files).filterMap fun f => (processFile env f).entry

/-- Outcome of the whole script run. -/
structure RunResult where
  exitCode : Nat
  manifest : Option (List Entry)
deriving DecidableEq

/-- The whole script: `if (!files.length) { console.log(...);
process.exit(0); }` — early exit with status 0 and no `index.json`
write; otherwise the loop runs and `index.json` is written, the process
finishing normally (status 0) regardless of per-item failures. -/
def runScript (env : Env) (files : List String) : RunResult :=
  if files.length = 0 then { exitCode := 0, manifest := none }
  else { exitCode := 0, manifest := some (runBatch env files) }

/-! ## Classification and the front end (script.js) -/

inductive Kind
  | animated
  | staticKind
deriving DecidableEq

/-- The pipeline's classification: animated iff the lowercased
extension is `.gif`, static otherwise; a pure function of the path
string (no file content is consulted anywhere in discovery). -/
def classify (p : String) : Kind :=
  if isGif p then Kind.animated else Kind.staticKind

/-- `script.js`: `name.match(/^(\d{4})[-_.]/)` on the basename — four
leading decimal digits immediately followed by one of `-`, `_`, `.`. -/
def yearFromName : List Char → Option (List Char)
  | d1 :: d2 :: d3 :: d4 :: sep :: _ =>
    if d1.isDigit && d2.isDigit && d3.isDigit && d4.isDigit &&
       (sep == '-' || sep == '_' || sep == '.') then
      some [d1, d2, d3, d4]
    else none
  | _ => none

/-- `yearFromItem` of `script.js`: basename of the entry's `original`,
then the `^(\d{4})[-_.]` match, `null` otherwise. -/
def yearFromItem (original : String) : Option String :=
  (yearFromName (lastComponentChars original.data)).map String.mk

/-- The spec sentence's reading of year extraction, stated with
take/drop rather than the code's head-pattern match: the year is the
leading four-character all-digit chunk of the basename when the
character right after it is `-`, `_` or `.`. -/
def specYearOf (name : List Char) : Option (List Char) :=
  let lead := name.take 4
  let sepOk := match name.drop 4 with
    | c :: _ => c == '-' || c == '_' || c == '.'
    | [] => false
  if lead.length == 4 && lead.all Char.isDigit && sepOk then some lead else none

/-! ## Sharp resize model (static tiers) -/

/-- The subset of Sharp resize options the pipeline uses. -/
structure ResizeOptions where
  width : Option Nat
  height : Option Nat
  withoutEnlargement : Bool
  fit : Option String
deriving DecidableEq

/-- `sharp(file).resize({ width: 1600, withoutEnlargement: true })`. -/
def fullResize : ResizeOptions :=
  { width := some 1600, height := none, withoutEnlargement := true, fit := none }

/-- `sharp(file).resize({ width: 360, height: 360, fit: "cover", position: "centre" })`. -/
def thumbResize : ResizeOptions :=
  { width := some 360, height := some 360, withoutEnlargement := false, fit := some "cover" }

/-- Modelled from the spec: Sharp is an external collaborator (the
"image-processing capability" of §6) whose resize implementation is not
part of this repository.  Per the spec (§4.2), a width-only resize
scales to the requested width preserving aspect ratio exactly, with
`withoutEnlargement` capping the target at the source width (never
upscaling); a width+height resize with `fit: "cover"` produces exactly
the requested box.  Dimensions are rationals so the preserved ratio is
exact. -/
def sharpResizedDims (opts : ResizeOptions) (srcW srcH : ℚ) : ℚ × ℚ :=
  match opts.width, opts.height with
  | some w, some h => ((w : ℚ), (h : ℚ))
  | some w, none =>
    let outW := if opts.withoutEnlargement then min srcW (w : ℚ) else (w : ℚ)
    (outW, srcH * outW / srcW)
  | none, some h =>
    let outH := if opts.withoutEnlargement then min srcH (h : ℚ) else (h : ℚ)
    (srcW * outH / srcH, outH)
  | none, none => (srcW, srcH)

/-! ## Helper lemmas -/

/-- Whatever entry an item produces is exactly the entry shape its kind
dictates, built from the source path and its basename. -/
theorem processFile_entry_shape (env : Env) (f : String) (e : Entry)
    (h : (processFile env f).entry = some e) :
    e = if isGif f then gifEntry f else staticEntry f := by
  cases ht : env.throws f
  case false =>
    cases hg : isGif f
    case false =>
      cases h1 : (env.sharpOutcome f).fullWebpOk <;>
      cases h2 : (env.sharpOutcome f).fullJpgOk <;>
      cases h3 : (env.sharpOutcome f).thumbWebpOk <;>
      cases h4 : (env.sharpOutcome f).thumbJpgOk <;>
        simp_all [processFile, processStatic]
    case true =>
      cases h1 : env.ffmpegOk (vp9Args f (gifFullOut f)) <;>
      cases h2 : env.ffmpegOk (vp8Args f (gifFullOut f)) <;>
      cases h3 : env.ffmpegOk (thumbArgs f (gifThumbOut f)) <;>
        simp_all [processFile, processGif]
  case true => simp_all [processFile]

theorem processFile_entry_original (env : Env) (f : String) (e : Entry)
    (h : (processFile env f).entry = some e) : e.original = f := by
  have := processFile_entry_shape env f e h
  cases hg : isGif f <;> simp_all [gifEntry, staticEntry, relToRoot]

theorem length_filterMap_eq_countP {α β : Type} (g : α → Option β) (l : List α) :
    (l.filterMap g).length = l.countP fun a => (g a).isSome := by
  induction l with
  | nil => rfl
  | cons a t ih =>
    cases hga : g a <;>
      simp [List.filterMap_cons, hga, List.countP_cons, ih]

theorem countP_filter_not_add {α : Type} (p q : α → Bool) (l : List α) :
    ((l.filter fun a => !(q a)).countP p) + ((l.filter q).countP p) = l.countP p := by
  induction l with
  | nil => rfl
  | cons a t ih =>
    cases hqa : q a <;> simp [List.filter_cons, hqa, List.countP_cons] <;> omega

theorem map_filterMap_eq_filter {α β : Type} (g : α → Option β) (h : β → α)
    (hg : ∀ a b, g a = some b → h b = a) (l : List α) :
    (l.filterMap g).map h = l.filter fun a => (g a).isSome := by
  induction l with
  | nil => rfl
  | cons a t ih =>
    cases hga : g a with
    | none => simp [List.filterMap_cons, hga, List.filter_cons, ih]
    | some b => simp [List.filterMap_cons, hga, List.filter_cons, ih, hg a b hga]

/-! ## Claim theorems -/

/-- C1.  The claim says every ffmpeg invocation is bounded by the 90 s
wall-clock budget.  The code does not enforce it: `runCmd` is declared
with two parameters, so the timeout option object passed as a third
argument at the ffmpeg call sites is discarded, and
`spawnSync` always runs with no `timeout` option.  Hence no invocation
is ever abandoned and a child that would run `childMs` ms blocks the
script for the full `childMs` — whereas the very option object the call
sites build would, had it reached `spawnSync`, abandon a child at
`MAX_FFMPEG_MS` (third conjunct). -/
theorem runCmd_timeout_never_enforced :
    (∀ (callerThirdArg : Option SpawnSyncOptions) (childMs : Nat),
      spawnSyncAbandoned (runCmdSpawnOptions callerThirdArg) childMs = false
      ∧ spawnSyncElapsed (runCmdSpawnOptions callerThirdArg) childMs = childMs)
    ∧ ffmpegCallSiteOptions.timeout = some MAX_FFMPEG_MS
    ∧ spawnSyncAbandoned ffmpegCallSiteOptions (MAX_FFMPEG_MS + 1) = true := by
  refine ⟨fun c m => ⟨rfl, rfl⟩, rfl, by decide⟩

/-- C4 counterexample.  The claim calls the zero-candidate-files exit
"fatal", in contrast to the non-fatal completion of a non-empty batch;
but the code runs `process.exit(0)`: the zero-file run ends with exit
status 0 — the same success status as every completed run — while
(correctly per the claim) writing no manifest. -/
theorem zero_files_exit_is_success :
    (runScript { ffmpegOk := fun _ => false,
                 sharpOutcome := fun _ => ⟨false, false, false, false⟩,
                 throws := fun _ => false } []).exitCode = 0
    ∧ (runScript { ffmpegOk := fun _ => false,
                   sharpOutcome := fun _ => ⟨false, false, false, false⟩,
                   throws := fun _ => false } []).manifest = none :=
  ⟨rfl, rfl⟩

/-- C4 amended.  When the source root yields zero candidate files the
run takes an early exit writing no manifest file, but with exit status
0 (success) — the same status as every other run; per-item failures in
a non-empty batch likewise leave the exit status 0, and a non-empty
batch always writes a manifest. -/
theorem zero_files_early_exit (env : Env) (files : List String) :
    (runScript env files).exitCode = 0
    ∧ ((runScript env files).manifest = none ↔ files = []) := by
  cases files <;> simp [runScript]

/-- C6.  The processing order is all static-classified files followed
by all gif-classified files, each sublist in discovery order (the two
`filter`s are order-preserving), and the manifest lists exactly the
successful items of that processing order, in that order — the map of
`original` over the accumulated entries is the processing order
filtered to the items that produced an entry; no other reordering
happens anywhere between discovery and serialization. -/
theorem manifest_order_is_processing_order (env : Env) (files : List String) :
    orderedFiles files
      = (files.filter fun f => !(isGif f)) ++ (files.filter fun f => isGif f)
    ∧ (runBatch env files).map Entry.original
      = (orderedFiles files).filter fun f => ((processFile env f).entry).isSome := by
  refine ⟨rfl, ?_⟩
  exact map_filterMap_eq_filter _ _ (fun f e h => processFile_entry_original env f e h) _

/-- C7.  Classification is a pure function of the path string: a file
is classified animated exactly when its extension lowercases to
`.gif`, and any two paths whose lowercased extensions agree (in
particular paths differing only in extension case) classify
identically. -/
theorem classification_by_lowercased_extension :
    (∀ p : String, classify p = Kind.animated ↔ lowerExt p = ".gif")
    ∧ (∀ p q : String, lowerExt p = lowerExt q → classify p = classify q) := by
  constructor
  · intro p
    unfold classify isGif
    by_cases h : lowerExt p = ".gif" <;> simp [h]
  · intro p q h
    unfold classify isGif
    rw [h]

/-- C7 witness: `photo.PNG` and `photo.png` classify identically, at
concrete inputs. -/
theorem classification_by_lowercased_extension_witness :
    classify "photo.PNG" = classify "photo.png" :=
  classification_by_lowercased_extension.2 "photo.PNG" "photo.png" (by decide)

/-- C2.  An item contributes a manifest entry only when every encode it
depends on succeeded — for a gif, the full rendition (VP9 or the VP8
retry) AND the thumbnail rendition; for a static image, all four Sharp
encodes — and the files the entry references are exactly the files the
item successfully wrote (so no entry references a failed or skipped
variant); an item that threw contributes nothing. -/
theorem entry_only_after_all_variants_written (env : Env) (file : String) (e : Entry)
    (h : (processFile env file).entry = some e) :
    entryPaths e = (processFile env file).written
    ∧ (if isGif file then
        (env.ffmpegOk (vp9Args file (gifFullOut file))
          || env.ffmpegOk (vp8Args file (gifFullOut file)))
        && env.ffmpegOk (thumbArgs file (gifThumbOut file))
      else
        (env.sharpOutcome file).fullWebpOk && (env.sharpOutcome file).fullJpgOk
        && (env.sharpOutcome file).thumbWebpOk && (env.sharpOutcome file).thumbJpgOk) = true
    ∧ env.throws file = false := by
  cases ht : env.throws file
  case false =>
    cases hg : isGif file
    case false =>
      cases h1 : (env.sharpOutcome file).fullWebpOk <;>
      cases h2 : (env.sharpOutcome file).fullJpgOk <;>
      cases h3 : (env.sharpOutcome file).thumbWebpOk <;>
      cases h4 : (env.sharpOutcome file).thumbJpgOk <;>
        simp_all [processFile, processStatic, entryPaths, staticEntry, relToRoot]
      all_goals (rw [← h]; simp)
    case true =>
      cases h1 : env.ffmpegOk (vp9Args file (gifFullOut file)) <;>
      cases h2 : env.ffmpegOk (vp8Args file (gifFullOut file)) <;>
      cases h3 : env.ffmpegOk (thumbArgs file (gifThumbOut file)) <;>
        simp_all [processFile, processGif, entryPaths, gifEntry, relToRoot]
      all_goals (rw [← h]; simp)
  case true => simp_all [processFile]

/-- C2 witness: a static asset whose four encodes all succeed, at a
concrete input, with the concrete entry it produces. -/
theorem entry_only_after_all_variants_written_witness :
    entryPaths
        { original := "images/2022-05-01_cat.png",
          optimized := [("webp", "images-optimized/2022-05-01_cat.webp"),
                        ("jpg", "images-optimized/2022-05-01_cat.jpg")],
          thumbnail := [("webp", "images-thumbs/2022-05-01_cat.webp"),
                        ("jpg", "images-thumbs/2022-05-01_cat.jpg")],
          format := "image" }
      = (processFile
          { ffmpegOk := fun _ => true,
            sharpOutcome := fun _ => ⟨true, true, true, true⟩,
            throws := fun _ => false } "images/2022-05-01_cat.png").written
    ∧ (if isGif "images/2022-05-01_cat.png" then
        ((fun (_ : List String) => true) (vp9Args "images/2022-05-01_cat.png" (gifFullOut "images/2022-05-01_cat.png"))
          || (fun (_ : List String) => true) (vp8Args "images/2022-05-01_cat.png" (gifFullOut "images/2022-05-01_cat.png")))
        && (fun (_ : List String) => true) (thumbArgs "images/2022-05-01_cat.png" (gifThumbOut "images/2022-05-01_cat.png"))
      else true && true && true && true) = true
    ∧ (fun (_ : String) => false) "images/2022-05-01_cat.png" = false :=
  entry_only_after_all_variants_written
    { ffmpegOk := fun _ => true,
      sharpOutcome := fun _ => ⟨true, true, true, true⟩,
      throws := fun _ => false }
    "images/2022-05-01_cat.png" _ (by decide)

/-- C3.  Per-item failures are isolated by the try/catch at the asset
boundary: a batch consisting of one file whose processing throws an
unexpected exception plus `files` further assets that all produce
entries yields a manifest with exactly `files.length` entries — the
run is never aborted (the embedded loop is total) and the failing item
only loses its own entry. -/
theorem per_item_failure_isolated (env : Env) (bad : String) (files : List String)
    (hbad : env.throws bad = true)
    (hok : ∀ f ∈ files, ((processFile env f).entry).isSome = true) :
    (runBatch env (bad :: files)).length = files.length := by
  have hcount : (runBatch env (bad :: files)).length
      = (bad :: files).countP fun f => ((processFile env f).entry).isSome := by
    unfold runBatch orderedFiles
    rw [length_filterMap_eq_countP, List.countP_append, countP_filter_not_add]
  rw [hcount, List.countP_cons]
  have hpbad : ((processFile env bad).entry).isSome = false := by
    simp [processFile, hbad]
  rw [List.countP_eq_length.mpr hok, hpbad]
  simp

/-- C3 witness: one file that throws plus two processable files yields
exactly two entries, at concrete inputs. -/
theorem per_item_failure_isolated_witness :
    (runBatch
        { ffmpegOk := fun _ => true,
          sharpOutcome := fun _ => ⟨true, true, true, true⟩,
          throws := fun f => f == "images/bad.png" }
        ["images/bad.png", "images/a.png", "images/b.gif"]).length = 2 :=
  per_item_failure_isolated
    { ffmpegOk := fun _ => true,
      sharpOutcome := fun _ => ⟨true, true, true, true⟩,
      throws := fun f => f == "images/bad.png" }
    "images/bad.png" ["images/a.png", "images/b.gif"] (by decide) (by decide)

/-- C5.  The gif branch's fallback chain, characterized completely:
the invocations made are VP9 then (only on VP9 failure) exactly one
VP8 retry, then (only when a full-rendition attempt succeeded) the
thumbnail encode; when both full attempts fail the original gif is
copied into the full-tier output directory, no thumbnail invocation is
made, and no entry is produced.  The two full-attempt profiles differ:
the primary uses codec `libvpx-vp9` at `-crf 35`, the retry codec
`libvpx` at `-crf 30`. -/
theorem gif_fallback_chain (ok : List String → Bool) (file : String) :
    ((processGif ok file).invocations =
      if ok (vp9Args file (gifFullOut file)) then
        [vp9Args file (gifFullOut file), thumbArgs file (gifThumbOut file)]
      else if ok (vp8Args file (gifFullOut file)) then
        [vp9Args file (gifFullOut file), vp8Args file (gifFullOut file),
         thumbArgs file (gifThumbOut file)]
      else
        [vp9Args file (gifFullOut file), vp8Args file (gifFullOut file)])
    ∧ (ok (vp9Args file (gifFullOut file)) = false →
       ok (vp8Args file (gifFullOut file)) = false →
        (processGif ok file).copiedTo = some (gifCopyOut file)
        ∧ (processGif ok file).entry = none
        ∧ (processGif ok file).written = [gifCopyOut file])
    ∧ "libvpx-vp9" ∈ vp9Args file (gifFullOut file)
    ∧ "35" ∈ vp9Args file (gifFullOut file)
    ∧ "libvpx" ∈ vp8Args file (gifFullOut file)
    ∧ "30" ∈ vp8Args file (gifFullOut file) := by
  refine ⟨?_, ?_, by simp [vp9Args], by simp [vp9Args], by simp [vp8Args], by simp [vp8Args]⟩
  · cases h1 : ok (vp9Args file (gifFullOut file)) <;>
    cases h2 : ok (vp8Args file (gifFullOut file)) <;>
    cases h3 : ok (thumbArgs file (gifThumbOut file)) <;>
      simp [processGif, h1, h2, h3]
  · intro h1 h2
    simp [processGif, h1, h2]

/-- C5 witness: a gif for which every ffmpeg invocation fails, at a
concrete input: the original is copied as degraded delivery and no
entry is produced. -/
theorem gif_fallback_chain_witness :
    (processGif (fun _ => false) "images/x.gif").copiedTo = some (gifCopyOut "images/x.gif")
    ∧ (processGif (fun _ => false) "images/x.gif").entry = none
    ∧ (processGif (fun _ => false) "images/x.gif").written = [gifCopyOut "images/x.gif"] :=
  (gif_fallback_chain (fun _ => false) "images/x.gif").2.1 rfl rfl

/-- C8.  Year extraction is a function of the original path's basename
alone, and agrees with the spec's rule: the year is the leading
four-digit chunk of the basename exactly when the character right
after it is `-`, `_` or `.`; `2023-04-01_beach.jpg` yields `2023` and
`beach.jpg` yields no year. -/
theorem year_extraction_rule :
    (∀ p : String,
      yearFromItem p = (specYearOf (lastComponentChars p.data)).map String.mk)
    ∧ yearFromItem "2023-04-01_beach.jpg" = some "2023"
    ∧ yearFromItem "beach.jpg" = none
    ∧ yearFromItem "images/2023-04-01_beach.jpg" = some "2023" := by
  refine ⟨?_, by decide, by decide, by decide⟩
  intro p
  unfold yearFromItem
  congr 1
  match lastComponentChars p.data with
  | [] => rfl
  | [a] => rfl
  | [a, b] => rfl
  | [a, b, c] => rfl
  | [a, b, c, d] => simp [yearFromName, specYearOf]
  | d1 :: d2 :: d3 :: d4 :: sep :: rest =>
    simp [yearFromName, specYearOf, Bool.and_assoc]

/-- C9.  The full-tier static resize (`width: 1600,
withoutEnlargement: true`) produces a width equal to the minimum of
the source width and the 1600 px cap — never wider than the source —
and preserves the aspect ratio exactly. -/
theorem static_full_never_upscales (srcW srcH : ℚ) (h : 0 < srcW) :
    (sharpResizedDims fullResize srcW srcH).1 = min srcW 1600
    ∧ (sharpResizedDims fullResize srcW srcH).1 ≤ srcW
    ∧ (sharpResizedDims fullResize srcW srcH).2 * srcW
        = srcH * (sharpResizedDims fullResize srcW srcH).1 := by
  refine ⟨by norm_num [sharpResizedDims, fullResize], ?_, ?_⟩
  · norm_num [sharpResizedDims, fullResize]
  · show srcH * (if True then min srcW ((1600 : Nat) : ℚ) else ((1600 : Nat) : ℚ)) / srcW * srcW
        = srcH * (sharpResizedDims fullResize srcW srcH).1
    rw [div_mul_cancel₀ _ h.ne']
    norm_num [sharpResizedDims, fullResize]

/-- C9 witness: a 200 px-wide source yields a 200 px-wide full-tier
output (no upscaling), at concrete dimensions. -/
theorem static_full_never_upscales_witness :
    (sharpResizedDims fullResize 200 100).1 = min (200 : ℚ) 1600
    ∧ (sharpResizedDims fullResize 200 100).1 ≤ 200
    ∧ (sharpResizedDims fullResize 200 100).2 * 200
        = 100 * (sharpResizedDims fullResize 200 100).1 :=
  static_full_never_upscales 200 100 (by norm_num)

/-- C10.  Discovery recurses into subdirectories (the glob pattern uses
a `**` segment), while every variant output path is built from the
source basename only: two sources with the same classification and the
same computed base (for example the same name in different
subdirectories, or the same stem with different static extensions) get
identical variant output paths — so the later one overwrites the
earlier one's files — and any manifest entries they produce reference
the same variant files. -/
theorem variant_paths_collide_on_equal_basenames (f1 f2 : String)
    (hk : isGif f1 = isGif f2) (hb : baseOf f1 = baseOf f2) :
    pattern = "images/**/*.+(jpg|jpeg|png|webp|gif|JPG|JPEG|PNG|WEBP|GIF)"
    ∧ variantOutputs f1 = variantOutputs f2
    ∧ (∀ (env1 env2 : Env) (e1 e2 : Entry),
        (processFile env1 f1).entry = some e1 →
        (processFile env2 f2).entry = some e2 →
        e1.optimized = e2.optimized ∧ e1.thumbnail = e2.thumbnail) := by
  refine ⟨rfl, ?_, ?_⟩
  · unfold variantOutputs
    rw [hk]
    cases hg : isGif f2 <;>
      simp [gifVariantOutputs, staticVariantOutputs, gifFullOut, gifThumbOut,
        staticFullWebp, staticFullJpg, staticThumbWebp, staticThumbJpg, hb]
  · intro env1 env2 e1 e2 h1 h2
    have he1 := processFile_entry_shape env1 f1 e1 h1
    have he2 := processFile_entry_shape env2 f2 e2 h2
    rw [he1, he2, hk]
    cases hg : isGif f2 <;>
      simp [gifEntry, staticEntry, relToRoot, gifFullOut, gifThumbOut,
        staticFullWebp, staticFullJpg, staticThumbWebp, staticThumbJpg, hb]

/-- C10 witness: `images/a/x.png` and `images/b/x.jpg` — same stem in
different subdirectories with different static extensions — target
identical variant output paths. -/
theorem variant_paths_collide_on_equal_basenames_witness :
    variantOutputs "images/a/x.png" = variantOutputs "images/b/x.jpg" :=
  (variant_paths_collide_on_equal_basenames "images/a/x.png" "images/b/x.jpg"
    (by decide) (by decide)).2.1

end MdGallery
